import Mathlib

/-!
Verification development for the TIBC interest-rate ETL pipeline
(src/etl_tibc.py) and its visualization consumer
(src/visualizacion_tibc.py).

A pandas DataFrame is embedded as a `Table`: a list of column labels and a
list of rows, each row a list of cells.  A cell is either raw text (as read
from CSV), a parsed calendar date, a parsed number, or absent (NaN / NaT).
Library calls (pandas to_datetime / to_numeric / read_csv, requests,
sqlite3) are modelled by explicit Lean functions whose doc comments record
the modelling decisions; the pipeline functions `extract_data`,
`transform_data` and `load_data` follow the Python source line by line.
-/

/-- Calendar date as produced by parsing a `DD/MM/YYYY` string. -/
structure Date where
  day : Nat
  month : Nat
  year : Nat
deriving DecidableEq

/-- One DataFrame cell: raw text, a parsed date, a parsed number, or
absent (pandas NaN / NaT). -/
inductive Cell where
  | str : String → Cell
  | date : Date → Cell
  | num : Rat → Cell
  | absent : Cell
deriving DecidableEq

/-- Embedding of a pandas DataFrame: column labels plus rows of cells. -/
structure Table where
  columns : List String
  rows : List (List Cell)
deriving DecidableEq

/-- The DataFrame `pd.DataFrame()`: no columns, no rows. -/
def emptyTable : Table := ⟨[], []⟩

/-- Embeds `df.empty`: a pandas DataFrame is empty when either axis has
length zero (a zero-row frame with columns still counts as empty). -/
def Table.isEmpty (t : Table) : Bool := t.rows.isEmpty || t.columns.isEmpty

/-! ### Character-list utilities (kernel-reducible stand-ins for string ops) -/

/-- Splits a character list on a separator; auxiliary accumulator form. -/
def splitOnCharAux (sep : Char) : List Char → List Char → List (List Char)
  | [], acc => [acc.reverse]
  | c :: cs, acc =>
    if c = sep then acc.reverse :: splitOnCharAux sep cs []
    else splitOnCharAux sep cs (c :: acc)

/-- Splits a character list on a separator character. -/
def splitOnChar (sep : Char) (l : List Char) : List (List Char) :=
  splitOnCharAux sep l []

/-- Reads a digit list as a natural number (most significant first). -/
def digitsToNat (l : List Char) : Nat :=
  l.foldl (fun acc c => acc * 10 + (c.toNat - 48)) 0

/-- True when every character is a decimal digit. -/
def allDigits (l : List Char) : Bool := l.all Char.isDigit

/-- Removes leading and trailing whitespace. -/
def trimL (l : List Char) : List Char :=
  ((l.dropWhile Char.isWhitespace).reverse.dropWhile Char.isWhitespace).reverse

/-! ### Date parsing: model of strict `pd.to_datetime(-, format='%d/%m/%Y')`
on a single string -/

/-- Gregorian leap-year rule. -/
def isLeapYear (y : Nat) : Bool :=
  (y % 4 == 0 && y % 100 != 0) || y % 400 == 0

/-- Number of days in a month (1..12) of a given year. -/
def daysInMonth (m y : Nat) : Nat :=
  if m = 2 then (if isLeapYear y then 29 else 28)
  else if m = 4 ∨ m = 6 ∨ m = 9 ∨ m = 11 then 30
  else 31

/-- Model of parsing one string with the strict format `%d/%m/%Y` (as in
`pd.to_datetime(..., format='%d/%m/%Y')` applied to a single value): three
slash-separated all-digit fields, day and month of one or two digits, year
of four digits, and the triple must be a valid calendar date.  Anything
else (in particular the empty string) fails. -/
def parseDate (s : String) : Option Date :=
  match splitOnChar '/' s.data with
  | [d, m, y] =>
    if 1 ≤ d.length ∧ d.length ≤ 2 ∧ 1 ≤ m.length ∧ m.length ≤ 2 ∧ y.length = 4
        ∧ allDigits d ∧ allDigits m ∧ allDigits y then
      let dn := digitsToNat d
      let mn := digitsToNat m
      let yn := digitsToNat y
      if 1 ≤ mn ∧ mn ≤ 12 ∧ 1 ≤ dn ∧ dn ≤ daysInMonth mn yn then
        some ⟨dn, mn, yn⟩
      else none
    else none
  | _ => none

/-! ### Numeric parsing: model of `pd.to_numeric` on a single string -/

/-- Parses an unsigned decimal numeral: either all digits, or two digit
groups around a single point with at least one digit in total. -/
def parseUnsigned (l : List Char) : Option Rat :=
  match splitOnChar '.' l with
  | [ip] =>
    if 1 ≤ ip.length ∧ allDigits ip then some (digitsToNat ip : Rat) else none
  | [ip, fp] =>
    if 1 ≤ ip.length + fp.length ∧ allDigits ip ∧ allDigits fp then
      some ((digitsToNat (ip ++ fp) : Rat) / (10 ^ fp.length : Rat))
    else none
  | _ => none

/-- Model of `pd.to_numeric` applied to one string: optional surrounding
whitespace, optional sign, then a plain decimal numeral with '.' as the
decimal separator.  Scientific notation and the special words inf/nan are
not modelled (a nan input coerces to absent through the same path as a
parse failure, so the claims are unaffected).  A comma is not a decimal
separator: "12,5" fails to parse. -/
def parseNumeric (s : String) : Option Rat :=
  match trimL s.data with
  | '-' :: rest => (parseUnsigned rest).map (fun q => -q)
  | '+' :: rest => parseUnsigned rest
  | l => parseUnsigned l

/-! ### Table primitives -/

/-- Applies a function to the cell at one position of a row, leaving the
row unchanged when the position is out of range. -/
def modifyAt (f : Cell → Cell) : List Cell → Nat → List Cell
  | [], _ => []
  | c :: cs, 0 => f c :: cs
  | c :: cs, n + 1 => c :: modifyAt f cs n

/-- First index of a label in a label list. -/
def idxOf? (n : String) : List String → Option Nat
  | [] => none
  | c :: cs => if c = n then some 0 else (idxOf? n cs).map (· + 1)

/-- Index of a named column. -/
def Table.colIdx (t : Table) (n : String) : Option Nat := idxOf? n t.columns

/-- The cells of column `i`, one per row (absent when a row is short). -/
def Table.getColAt (t : Table) (i : Nat) : List Cell :=
  t.rows.map (fun r => r.getD i Cell.absent)

/-- The cells of a named column, if the column exists. -/
def Table.getCol (t : Table) (n : String) : Option (List Cell) :=
  (t.colIdx n).map t.getColAt

/-- Rewrites column `i` cell-by-cell (the embedding of assigning a
transformed Series back to `df[col]`). -/
def Table.mapColAt (t : Table) (i : Nat) (f : Cell → Cell) : Table :=
  ⟨t.columns, t.rows.map (fun r => modifyAt f r i)⟩

/-! ### transform_data (src/etl_tibc.py lines 40-115) -/

/-- The rename dictionary of transform_data (source lines 61-68). -/
def column_mapping : List (String × String) :=
  [("RESOLUCION", "resolucion_id"),
   ("FECHA_RESOLUCION", "fecha_resolucion"),
   ("VIGENCIA_DESDE", "vigencia_desde"),
   ("VIGENCIA_HASTA", "vigencia_hasta"),
   ("INTERES_BANCARIO_CORRIENTE", "tasa_interes_ea"),
   ("MODALIDAD", "tipo_credito_nombre")]

/-- Renames one label through the mapping; unmapped labels pass through. -/
def renameColumn (c : String) : String :=
  match column_mapping.find? (fun p => p.fst == c) with
  | some p => p.snd
  | none => c

/-- Embeds `df.rename(columns=column_mapping)`: labels are rewritten,
cells untouched. -/
def renameColumns (t : Table) : Table := ⟨t.columns.map renameColumn, t.rows⟩

/-- Per-cell behaviour of `pd.to_datetime(-, format='%d/%m/%Y')`: a string
cell parses or fails, an absent cell stays absent without error (pandas
maps NaN to NaT even in strict mode), a date cell passes through, and a
numeric cell fails. -/
def parseDateCell : Cell → Option Cell
  | Cell.str s => (parseDate s).map Cell.date
  | Cell.date d => some (Cell.date d)
  | Cell.num _ => none
  | Cell.absent => some Cell.absent

/-- Coercing application of a per-cell parser: a failing cell becomes
absent (the `errors='coerce'` behaviour). -/
def coerceCell (p : Cell → Option Cell) (c : Cell) : Cell :=
  (p c).getD Cell.absent

/-- Embeds the strict conversion `df[n] = pd.to_datetime(df[n], format=...)`
wrapped in try/except (source lines 75-79): a missing column raises
KeyError which the except swallows (no-op); if any cell of the column
fails to parse, to_datetime raises and the except leaves the whole column
unchanged; only when every cell parses is the column rewritten. -/
def convertColStrict (t : Table) (n : String) (p : Cell → Option Cell) : Table :=
  match t.colIdx n with
  | none => t
  | some i =>
    if (t.getColAt i).all (fun c => (p c).isSome) then t.mapColAt i (coerceCell p)
    else t

/-- Embeds `df[n] = pd.to_datetime(df[n], errors='coerce', format=...)`
wrapped in try/except (source lines 84-94): a missing column is a
swallowed KeyError (no-op); otherwise every cell is converted
independently, failures becoming absent. -/
def convertColCoerce (t : Table) (n : String) (p : Cell → Option Cell) : Table :=
  match t.colIdx n with
  | none => t
  | some i => t.mapColAt i (coerceCell p)

/-- Removes every '%' character, embedding
`.astype(str).str.replace('%', '', regex=False)` (source line 99), which
replaces all occurrences, not only a trailing one. -/
def stripPercent (s : String) : String :=
  String.mk (s.data.filter (fun c => c ≠ '%'))

/-- Per-cell behaviour of the rate conversion (source lines 98-103):
strip all '%' characters then `pd.to_numeric(-, errors='coerce')`. An
absent cell round-trips to absent (astype(str) gives "nan", which
to_numeric maps back to NaN). -/
def rateCell : Cell → Cell
  | Cell.str s =>
    match parseNumeric (stripPercent s) with
    | some q => Cell.num q
    | none => Cell.absent
  | Cell.num q => Cell.num q
  | Cell.date _ => Cell.absent
  | Cell.absent => Cell.absent

/-- Embeds the rate conversion of source lines 98-103 on the named
column; a missing column is a swallowed KeyError (no-op). -/
def convertColRate (t : Table) (n : String) : Table :=
  match t.colIdx n with
  | none => t
  | some i => t.mapColAt i rateCell

/-- Embeds transform_data (source lines 40-115): empty input short-circuits
to a fresh empty DataFrame; otherwise rename, strict conversion of
fecha_resolucion, coercing conversion of the two vigencia columns, and
the rate conversion.  The null-count report (lines 106-112) only prints
and does not alter the table, so it has no embedding. -/
def transform_data (t : Table) : Table :=
  if t.isEmpty then emptyTable
  else
    convertColRate
      (convertColCoerce
        (convertColCoerce
          (convertColStrict (renameColumns t) "fecha_resolucion" parseDateCell)
          "vigencia_desde" parseDateCell)
        "vigencia_hasta" parseDateCell)
      "tasa_interes_ea"

/-- Stage view of transform_data on non-empty input: after renaming. -/
def stage1 (t : Table) : Table := renameColumns t

/-- Stage view: after the strict fecha_resolucion conversion. -/
def stage2 (t : Table) : Table :=
  convertColStrict (stage1 t) "fecha_resolucion" parseDateCell

/-- Stage view: after the coercing vigencia_desde conversion. -/
def stage3 (t : Table) : Table :=
  convertColCoerce (stage2 t) "vigencia_desde" parseDateCell

/-- Stage view: after the coercing vigencia_hasta conversion. -/
def stage4 (t : Table) : Table :=
  convertColCoerce (stage3 t) "vigencia_hasta" parseDateCell

/-! ### extract_data (src/etl_tibc.py lines 8-38) -/

/-- Python exceptions relevant to the embedded scripts. -/
inductive PyExc where
  | requestException : PyExc
  | emptyDataError : PyExc
  | sqliteError : PyExc
  | keyError : String → PyExc
  | valueError : String → PyExc
deriving DecidableEq

/-- Outcome of the `requests.get(url)` call: either a transport-level
failure (connection error, timeout, too many redirects — raised as a
RequestException) or a final HTTP response with status code and body. -/
inductive HttpOutcome where
  | transportError : HttpOutcome
  | response : Nat → String → HttpOutcome
deriving DecidableEq

/-- Embeds `response.raise_for_status()`: raises HTTPError (a
RequestException) exactly for 4xx and 5xx status codes; 1xx, 2xx and 3xx
codes pass. -/
def raise_for_status (code : Nat) : Except PyExc Unit :=
  if 400 ≤ code ∧ code < 600 then Except.error PyExc.requestException
  else Except.ok ()

/-- One CSV field: pandas reads an empty field as NaN (absent), any other
field as text. -/
def csvCell (f : List Char) : Cell :=
  if f.isEmpty then Cell.absent else Cell.str (String.mk f)

/-- Model of `pd.read_csv` on the response text: newline-separated
records (blank lines skipped, as with the default skip_blank_lines),
comma-separated fields, first record the header.  A body with no records
raises EmptyDataError.  Quoting and escapes are not modelled. -/
def read_csv (body : String) : Except PyExc Table :=
  match (splitOnChar '\n' body.data).filter (fun l => !l.isEmpty) with
  | [] => Except.error PyExc.emptyDataError
  | header :: rest =>
    Except.ok ⟨(splitOnChar ',' header).map String.mk,
               rest.map (fun l => (splitOnChar ',' l).map csvCell)⟩

/-- The body of extract_data's try block (source lines 20-29): GET the
URL, raise for 4xx/5xx, parse the body as CSV. -/
def extract_attempt (o : HttpOutcome) : Except PyExc Table :=
  match o with
  | HttpOutcome.transportError => Except.error PyExc.requestException
  | HttpOutcome.response code body =>
    match raise_for_status code with
    | Except.error e => Except.error e
    | Except.ok _ => read_csv body

/-- Embeds extract_data (source lines 8-38): the three except clauses
(RequestException, EmptyDataError, Exception) each return an empty
DataFrame, so every raised exception is swallowed into `emptyTable`. -/
def extract_data (o : HttpOutcome) : Table :=
  match extract_attempt o with
  | Except.ok t => t
  | Except.error _ => emptyTable

/-! ### load_data (src/etl_tibc.py lines 117-152) and the main pipeline -/

/-- Connection lifecycle events observable during load_data. -/
inductive LoadEvent where
  | connOpened : LoadEvent
  | connClosed : LoadEvent
deriving DecidableEq

/-- Sets a key in an association list, replacing the first binding or
appending a new one. -/
def setAssoc {α : Type} : List (String × α) → String → α → List (String × α)
  | [], k, v => [(k, v)]
  | (k1, v1) :: rest, k, v =>
    if k1 = k then (k, v) :: rest else (k1, v1) :: setAssoc rest k v

/-- Looks a key up in an association list. -/
def getAssoc {α : Type} : List (String × α) → String → Option α
  | [], _ => none
  | (k1, v1) :: rest, k => if k1 = k then some v1 else getAssoc rest k

/-- One SQLite database file: named tables. -/
abbrev DBFile := List (String × Table)

/-- The persistent world: database files by name. -/
abbrev StoreWorld := List (String × DBFile)

/-- Embeds `sqlite3.connect(db_name)` creating the database file when it
does not yet exist. -/
def connectDb (w : StoreWorld) (dbn : String) : StoreWorld :=
  match getAssoc w dbn with
  | some _ => w
  | none => setAssoc w dbn []

/-- The persisted contents of one table of one database. -/
def getTable (w : StoreWorld) (dbn tbn : String) : Option Table :=
  match getAssoc w dbn with
  | some db => getAssoc db tbn
  | none => none

/-- Embeds `df.to_sql(table_name, conn, if_exists='replace', index=False)`:
the named table is dropped and recreated with exactly the DataFrame's
columns and rows (no synthetic index column is added). -/
def writeTable (w : StoreWorld) (dbn tbn : String) (t : Table) : StoreWorld :=
  setAssoc w dbn (setAssoc ((getAssoc w dbn).getD []) tbn t)

/-- What a call to load_data produces: the updated world, the connection
events in order, and the exception propagated to the caller (if any). -/
structure LoadOutcome where
  world : StoreWorld
  events : List LoadEvent
  exc : Option PyExc
deriving DecidableEq

/-- Embeds load_data (source lines 117-152).  An empty DataFrame returns
before any connection is made.  `connectFails` and `sqlFails` are oracles
for the two fallible library calls, sqlite3.connect and to_sql; both
failures are caught by the except clauses and never re-raised, and the
finally block closes the connection whenever one was opened (when connect
itself fails, `conn` is still None and nothing is closed). -/
def load_data (df : Table) (db_name table_name : String) (w : StoreWorld)
    (connectFails sqlFails : Bool) : LoadOutcome :=
  if df.isEmpty then ⟨w, [], none⟩
  else if connectFails then ⟨w, [], none⟩
  else if sqlFails then
    ⟨connectDb w db_name, [LoadEvent.connOpened, LoadEvent.connClosed], none⟩
  else
    ⟨writeTable (connectDb w db_name) db_name table_name df,
     [LoadEvent.connOpened, LoadEvent.connClosed], none⟩

/-- Database file name used by the main block (source line 188). -/
def db_filename : String := "tibc_data.db"

/-- Table name used by the main block (source line 189). -/
def main_table_name : String := "tasas_interes_bancario"

/-- Embeds the main block (source lines 155-199): extract, then transform
and load only when the intermediate DataFrames are non-empty. -/
def run_pipeline (o : HttpOutcome) (w : StoreWorld)
    (connectFails sqlFails : Bool) : LoadOutcome :=
  let df_raw := extract_data o
  if df_raw.isEmpty then ⟨w, [], none⟩
  else
    let df_t := transform_data df_raw
    if df_t.isEmpty then ⟨w, [], none⟩
    else load_data df_t db_filename main_table_name w connectFails sqlFails

/-! ### The visualization script (src/visualizacion_tibc.py) -/

/-- Model of flexible `pd.to_datetime(-, errors='coerce')` (no format)
on one string: accepts the strict DD/MM/YYYY shape and the ISO
YYYY-MM-DD shape (with an optional time suffix after a space), the two
shapes this pipeline can put into storage; anything else coerces to
absent.  Only absence versus presence matters for the exit-code claim. -/
def parseDateFlex (s : String) : Option Date :=
  match parseDate s with
  | some d => some d
  | none =>
    match splitOnChar ' ' s.data with
    | datePart :: _ =>
      match splitOnChar '-' datePart with
      | [y, m, d] =>
        if y.length = 4 ∧ 1 ≤ m.length ∧ m.length ≤ 2 ∧ 1 ≤ d.length ∧ d.length ≤ 2
            ∧ allDigits y ∧ allDigits m ∧ allDigits d then
          let yn := digitsToNat y
          let mn := digitsToNat m
          let dn := digitsToNat d
          if 1 ≤ mn ∧ mn ≤ 12 ∧ 1 ≤ dn ∧ dn ≤ daysInMonth mn yn then
            some ⟨dn, mn, yn⟩
          else none
        else none
      | _ => none
    | [] => none

/-- Per-cell behaviour of the visualizer's defensive date re-coercion. -/
def flexDateCell : Cell → Option Cell
  | Cell.str s => (parseDateFlex s).map Cell.date
  | Cell.date d => some (Cell.date d)
  | Cell.num _ => none
  | Cell.absent => some Cell.absent

/-- Per-cell behaviour of the visualizer's `pd.to_numeric(-, errors='coerce')`. -/
def numericCell : Cell → Option Cell
  | Cell.str s => (parseNumeric s).map Cell.num
  | Cell.num q => some (Cell.num q)
  | Cell.date _ => none
  | Cell.absent => some Cell.absent

/-- Embeds `df[n] = <coercing conversion of df[n]>` in the visualizer,
where no try/except surrounds the statement: a missing column raises
KeyError to the enclosing handler. -/
def coerceColOrKeyError (t : Table) (n : String) (p : Cell → Option Cell) :
    Except PyExc Table :=
  match t.colIdx n with
  | none => Except.error (PyExc.keyError n)
  | some i => Except.ok (t.mapColAt i (coerceCell p))

/-- Embeds `df.dropna(subset=['fecha_resolucion', 'tasa_interes_ea'])`
(visualizer line 62): keeps the rows where both named cells are present;
a missing column raises KeyError. -/
def dropnaSubset (t : Table) (n1 n2 : String) : Except PyExc Table :=
  match t.colIdx n1, t.colIdx n2 with
  | some i, some j =>
    Except.ok ⟨t.columns,
      t.rows.filter (fun r =>
        !(r.getD i Cell.absent == Cell.absent) && !(r.getD j Cell.absent == Cell.absent))⟩
  | none, _ => Except.error (PyExc.keyError n1)
  | some _, none => Except.error (PyExc.keyError n2)

/-- The visualizer's cleaning stage (lines 51-62): re-coerce the three
date columns and the rate column, then drop the rows missing the
resolution date or the rate. -/
def vizProcess (df : Table) : Except PyExc Table :=
  match coerceColOrKeyError df "fecha_resolucion" flexDateCell with
  | Except.error e => Except.error e
  | Except.ok t1 =>
    match coerceColOrKeyError t1 "vigencia_desde" flexDateCell with
    | Except.error e => Except.error e
    | Except.ok t2 =>
      match coerceColOrKeyError t2 "vigencia_hasta" flexDateCell with
      | Except.error e => Except.error e
      | Except.ok t3 =>
        match coerceColOrKeyError t3 "tasa_interes_ea" numericCell with
        | Except.error e => Except.error e
        | Except.ok t4 => dropnaSubset t4 "fecha_resolucion" "tasa_interes_ea"

/-- Checks that a seaborn data-variable lookup finds its column: the
plot calls raise ValueError into the generic handler when the named
column is missing from the DataFrame. -/
def requireCol (t : Table) (n : String) : Except PyExc Unit :=
  match t.colIdx n with
  | some _ => Except.ok ()
  | none => Except.error (PyExc.valueError n)

/-- Embeds the chart stage (visualizer lines 68-115) at column-lookup
granularity: the line plot (line 77) reads fecha_resolucion and
tasa_interes_ea, the box plot (line 89) and the top-5 bar plot (lines
107-108) also read tipo_credito_nombre, so a cleaned table lacking any
of these columns raises into the generic handler.  The actual rendering
and the savefig file writes are real I/O and are treated as
non-failing. -/
def chartStage (t : Table) : Except PyExc Unit :=
  match requireCol t "fecha_resolucion" with
  | Except.error e => Except.error e
  | Except.ok _ =>
    match requireCol t "tasa_interes_ea" with
    | Except.error e => Except.error e
    | Except.ok _ => requireCol t "tipo_credito_nombre"

/-- Environment the visualization script runs against: whether the
database file exists, and the outcome of connecting and reading the
table (sqlite3.Error, pandas DatabaseError on a missing table and any
other read failure are all caught by handlers that exit 1, so a single
error constructor suffices). -/
structure VizEnv where
  dbExists : Bool
  queryResult : Except PyExc Table

/-- Embeds the module-level visualization script's exit status: exits 1
at line 34 when the database file is missing and at lines 117-131 when
any exception reaches the handlers (a read failure, a KeyError from the
cleaning stage, or a ValueError from a chart's column lookup); exits 0
at line 49 (empty as read), at line 66 (empty after dropping
null-critical rows), and at the end of the script when the charts
succeed. -/
def viz_exit (env : VizEnv) : Nat :=
  if env.dbExists = false then 1
  else
    match env.queryResult with
    | Except.error _ => 1
    | Except.ok df =>
      if df.isEmpty then 0
      else
        match vizProcess df with
        | Except.error _ => 1
        | Except.ok df2 =>
          if df2.isEmpty then 0
          else
            match chartStage df2 with
            | Except.error _ => 1
            | Except.ok _ => 0

/-! ### Helper lemmas -/

theorem length_modifyAt (f : Cell → Cell) :
    ∀ (l : List Cell) (i : Nat), (modifyAt f l i).length = l.length := by
  intro l
  induction l with
  | nil => intro i; rfl
  | cons c cs ih =>
    intro i
    cases i with
    | zero => rfl
    | succ n => simp [modifyAt, ih]

theorem getD_modifyAt_ne (f : Cell → Cell) {i j : Nat} (h : j ≠ i) :
    ∀ (l : List Cell) (d : Cell), (modifyAt f l i).getD j d = l.getD j d := by
  induction i generalizing j with
  | zero =>
    intro l d
    cases l with
    | nil => rfl
    | cons c cs =>
      cases j with
      | zero => exact absurd rfl h
      | succ m => rfl
  | succ n ih =>
    intro l d
    cases l with
    | nil => rfl
    | cons c cs =>
      cases j with
      | zero => rfl
      | succ m =>
        have hm : m ≠ n := fun he => h (by rw [he])
        simp only [modifyAt, List.getD_cons_succ]
        exact ih hm cs d

theorem getD_modifyAt_self (f : Cell → Cell) {d : Cell} (hf : f d = d) :
    ∀ (l : List Cell) (i : Nat), (modifyAt f l i).getD i d = f (l.getD i d) := by
  intro l
  induction l with
  | nil => intro i; simp [modifyAt, List.getD, hf]
  | cons c cs ih =>
    intro i
    cases i with
    | zero => rfl
    | succ n => simpa [modifyAt] using ih n

theorem idxOf?_getElem {n : String} :
    ∀ {l : List String} {i : Nat}, idxOf? n l = some i → l[i]? = some n := by
  intro l
  induction l with
  | nil => intro i h; simp [idxOf?] at h
  | cons c cs ih =>
    intro i h
    by_cases hc : c = n
    · simp [idxOf?, hc] at h
      subst hc
      simp [← h]
    · simp [idxOf?, hc] at h
      obtain ⟨m, hm, hi⟩ := h
      subst hi
      simpa using ih hm

theorem colIdx_ne {t : Table} {n n' : String} {i j : Nat}
    (hn : t.colIdx n = some i) (hn' : t.colIdx n' = some j) (hne : n ≠ n') :
    i ≠ j := by
  intro he
  subst he
  have h1 := idxOf?_getElem hn
  have h2 := idxOf?_getElem hn'
  rw [h1] at h2
  exact hne (Option.some.inj h2)

theorem columns_mapColAt (t : Table) (i : Nat) (f : Cell → Cell) :
    (t.mapColAt i f).columns = t.columns := rfl

theorem rows_length_mapColAt (t : Table) (i : Nat) (f : Cell → Cell) :
    (t.mapColAt i f).rows.length = t.rows.length := by
  simp [Table.mapColAt]

theorem getColAt_mapColAt_ne (t : Table) {i j : Nat} (f : Cell → Cell) (h : j ≠ i) :
    (t.mapColAt i f).getColAt j = t.getColAt j := by
  simp only [Table.getColAt, Table.mapColAt, List.map_map]
  exact List.map_congr_left (fun r _ => by
    simp only [Function.comp_apply, getD_modifyAt_ne f h])

theorem getColAt_mapColAt_self (t : Table) (i : Nat) {f : Cell → Cell}
    (hf : f Cell.absent = Cell.absent) :
    (t.mapColAt i f).getColAt i = (t.getColAt i).map f := by
  simp only [Table.getColAt, Table.mapColAt, List.map_map]
  exact List.map_congr_left (fun r _ => by
    simp only [Function.comp_apply, getD_modifyAt_self f hf])

theorem columns_convertColStrict (t : Table) (n : String) (p : Cell → Option Cell) :
    (convertColStrict t n p).columns = t.columns := by
  unfold convertColStrict
  cases t.colIdx n with
  | none => rfl
  | some i =>
    by_cases h : (t.getColAt i).all (fun c => (p c).isSome) = true <;>
      simp [h, Table.mapColAt]

theorem columns_convertColCoerce (t : Table) (n : String) (p : Cell → Option Cell) :
    (convertColCoerce t n p).columns = t.columns := by
  unfold convertColCoerce
  cases t.colIdx n with
  | none => rfl
  | some i => rfl

theorem columns_convertColRate (t : Table) (n : String) :
    (convertColRate t n).columns = t.columns := by
  unfold convertColRate
  cases t.colIdx n with
  | none => rfl
  | some i => rfl

theorem colIdx_convertColStrict (t : Table) (n n' : String) (p : Cell → Option Cell) :
    (convertColStrict t n p).colIdx n' = t.colIdx n' := by
  unfold Table.colIdx
  rw [columns_convertColStrict]

theorem colIdx_convertColCoerce (t : Table) (n n' : String) (p : Cell → Option Cell) :
    (convertColCoerce t n p).colIdx n' = t.colIdx n' := by
  unfold Table.colIdx
  rw [columns_convertColCoerce]

theorem colIdx_convertColRate (t : Table) (n n' : String) :
    (convertColRate t n).colIdx n' = t.colIdx n' := by
  unfold Table.colIdx
  rw [columns_convertColRate]

theorem rows_length_convertColStrict (t : Table) (n : String) (p : Cell → Option Cell) :
    (convertColStrict t n p).rows.length = t.rows.length := by
  unfold convertColStrict
  cases t.colIdx n with
  | none => rfl
  | some i =>
    by_cases h : (t.getColAt i).all (fun c => (p c).isSome) = true <;>
      simp [h, rows_length_mapColAt]

theorem rows_length_convertColCoerce (t : Table) (n : String) (p : Cell → Option Cell) :
    (convertColCoerce t n p).rows.length = t.rows.length := by
  unfold convertColCoerce
  cases t.colIdx n with
  | none => rfl
  | some i => exact rows_length_mapColAt t i _

theorem rows_length_convertColRate (t : Table) (n : String) :
    (convertColRate t n).rows.length = t.rows.length := by
  unfold convertColRate
  cases t.colIdx n with
  | none => rfl
  | some i => exact rows_length_mapColAt t i _

theorem getColAt_convertColStrict_ne (t : Table) (n n' : String) {j : Nat}
    (p : Cell → Option Cell) (hj : t.colIdx n' = some j) (hne : n ≠ n') :
    (convertColStrict t n p).getColAt j = t.getColAt j := by
  unfold convertColStrict
  cases hi : t.colIdx n with
  | none => rfl
  | some i =>
    have hij : j ≠ i := (colIdx_ne hi hj hne).symm
    by_cases h : (t.getColAt i).all (fun c => (p c).isSome) = true <;>
      simp [h, getColAt_mapColAt_ne t _ hij]

theorem getColAt_convertColCoerce_ne (t : Table) (n n' : String) {j : Nat}
    (p : Cell → Option Cell) (hj : t.colIdx n' = some j) (hne : n ≠ n') :
    (convertColCoerce t n p).getColAt j = t.getColAt j := by
  unfold convertColCoerce
  cases hi : t.colIdx n with
  | none => rfl
  | some i =>
    exact getColAt_mapColAt_ne t _ ((colIdx_ne hi hj hne).symm)

theorem getColAt_convertColRate_ne (t : Table) (n n' : String) {j : Nat}
    (hj : t.colIdx n' = some j) (hne : n ≠ n') :
    (convertColRate t n).getColAt j = t.getColAt j := by
  unfold convertColRate
  cases hi : t.colIdx n with
  | none => rfl
  | some i =>
    exact getColAt_mapColAt_ne t _ ((colIdx_ne hi hj hne).symm)

theorem getColAt_convertColCoerce_self (t : Table) {n : String} {i : Nat}
    {p : Cell → Option Cell} (h : t.colIdx n = some i)
    (hp : coerceCell p Cell.absent = Cell.absent) :
    (convertColCoerce t n p).getColAt i = (t.getColAt i).map (coerceCell p) := by
  unfold convertColCoerce
  rw [h]
  exact getColAt_mapColAt_self t i hp

theorem getColAt_convertColStrict_all (t : Table) {n : String} {i : Nat}
    {p : Cell → Option Cell} (h : t.colIdx n = some i)
    (hall : (t.getColAt i).all (fun c => (p c).isSome) = true)
    (hp : coerceCell p Cell.absent = Cell.absent) :
    (convertColStrict t n p).getColAt i = (t.getColAt i).map (coerceCell p) := by
  have hrw : convertColStrict t n p = t.mapColAt i (coerceCell p) := by
    unfold convertColStrict
    rw [h]
    simp [hall]
  rw [hrw]
  exact getColAt_mapColAt_self t i hp

theorem convertColStrict_failure (t : Table) {n : String} {i : Nat}
    {p : Cell → Option Cell} (h : t.colIdx n = some i)
    (hfail : (t.getColAt i).all (fun c => (p c).isSome) = false) :
    convertColStrict t n p = t := by
  unfold convertColStrict
  rw [h]
  simp [hfail]

theorem getColAt_convertColRate_self (t : Table) {n : String} {i : Nat}
    (h : t.colIdx n = some i) :
    (convertColRate t n).getColAt i = (t.getColAt i).map rateCell := by
  unfold convertColRate
  rw [h]
  exact getColAt_mapColAt_self t i rfl

theorem getAssoc_setAssoc_self {α : Type} (k : String) (v : α) :
    ∀ l : List (String × α), getAssoc (setAssoc l k v) k = some v := by
  intro l
  induction l with
  | nil => simp [setAssoc, getAssoc]
  | cons p rest ih =>
    by_cases h : p.fst = k
    · simp [setAssoc, getAssoc, h]
    · simp [setAssoc, getAssoc, h, ih]

theorem setAssoc_idem {α : Type} (k : String) (v : α) :
    ∀ l : List (String × α), setAssoc (setAssoc l k v) k v = setAssoc l k v := by
  intro l
  induction l with
  | nil => simp [setAssoc]
  | cons p rest ih =>
    by_cases h : p.fst = k
    · simp [setAssoc, h]
    · simp [setAssoc, h, ih]

theorem transform_data_eq_stages (t : Table) (hne : t.isEmpty = false) :
    transform_data t = convertColRate (stage4 t) "tasa_interes_ea" := by
  unfold transform_data stage4 stage3 stage2 stage1
  rw [hne]
  simp

theorem colIdx_stage2 (t : Table) (n : String) :
    (stage2 t).colIdx n = (stage1 t).colIdx n :=
  colIdx_convertColStrict (stage1 t) "fecha_resolucion" n parseDateCell

theorem colIdx_stage3 (t : Table) (n : String) :
    (stage3 t).colIdx n = (stage1 t).colIdx n := by
  rw [stage3, colIdx_convertColCoerce, colIdx_stage2]

theorem colIdx_stage4 (t : Table) (n : String) :
    (stage4 t).colIdx n = (stage1 t).colIdx n := by
  rw [stage4, colIdx_convertColCoerce, colIdx_stage3]

theorem getCol_transform_eq (t : Table) (n : String) {i : Nat}
    (hne : t.isEmpty = false) (hi : (stage1 t).colIdx n = some i) :
    (transform_data t).getCol n
      = some ((convertColRate (stage4 t) "tasa_interes_ea").getColAt i) := by
  rw [transform_data_eq_stages t hne]
  unfold Table.getCol
  rw [colIdx_convertColRate, colIdx_stage4, hi]
  rfl

theorem getColAt_final_of_fecha (t : Table) {i : Nat}
    (hi : (stage1 t).colIdx "fecha_resolucion" = some i) :
    (convertColRate (stage4 t) "tasa_interes_ea").getColAt i
      = (stage2 t).getColAt i := by
  have h2 : (stage2 t).colIdx "fecha_resolucion" = some i := by
    rw [colIdx_stage2]; exact hi
  have h3 : (stage3 t).colIdx "fecha_resolucion" = some i := by
    rw [colIdx_stage3]; exact hi
  have h4 : (stage4 t).colIdx "fecha_resolucion" = some i := by
    rw [colIdx_stage4]; exact hi
  rw [getColAt_convertColRate_ne (stage4 t) "tasa_interes_ea" "fecha_resolucion"
        h4 (by decide)]
  rw [stage4, getColAt_convertColCoerce_ne (stage3 t) "vigencia_hasta"
        "fecha_resolucion" parseDateCell h3 (by decide)]
  rw [stage3, getColAt_convertColCoerce_ne (stage2 t) "vigencia_desde"
        "fecha_resolucion" parseDateCell h2 (by decide)]

theorem getColAt_final_of_vd (t : Table) {i : Nat}
    (hi : (stage1 t).colIdx "vigencia_desde" = some i) :
    (convertColRate (stage4 t) "tasa_interes_ea").getColAt i
      = ((stage1 t).getColAt i).map (coerceCell parseDateCell) := by
  have h2 : (stage2 t).colIdx "vigencia_desde" = some i := by
    rw [colIdx_stage2]; exact hi
  have h3 : (stage3 t).colIdx "vigencia_desde" = some i := by
    rw [colIdx_stage3]; exact hi
  have h4 : (stage4 t).colIdx "vigencia_desde" = some i := by
    rw [colIdx_stage4]; exact hi
  rw [getColAt_convertColRate_ne (stage4 t) "tasa_interes_ea" "vigencia_desde"
        h4 (by decide)]
  rw [stage4, getColAt_convertColCoerce_ne (stage3 t) "vigencia_hasta"
        "vigencia_desde" parseDateCell h3 (by decide)]
  rw [stage3, getColAt_convertColCoerce_self (stage2 t) h2
        (rfl : coerceCell parseDateCell Cell.absent = Cell.absent)]
  rw [stage2, getColAt_convertColStrict_ne (stage1 t) "fecha_resolucion"
        "vigencia_desde" parseDateCell hi (by decide)]

theorem getColAt_final_of_vh (t : Table) {i : Nat}
    (hi : (stage1 t).colIdx "vigencia_hasta" = some i) :
    (convertColRate (stage4 t) "tasa_interes_ea").getColAt i
      = ((stage1 t).getColAt i).map (coerceCell parseDateCell) := by
  have h2 : (stage2 t).colIdx "vigencia_hasta" = some i := by
    rw [colIdx_stage2]; exact hi
  have h3 : (stage3 t).colIdx "vigencia_hasta" = some i := by
    rw [colIdx_stage3]; exact hi
  have h4 : (stage4 t).colIdx "vigencia_hasta" = some i := by
    rw [colIdx_stage4]; exact hi
  rw [getColAt_convertColRate_ne (stage4 t) "tasa_interes_ea" "vigencia_hasta"
        h4 (by decide)]
  rw [stage4, getColAt_convertColCoerce_self (stage3 t) h3
        (rfl : coerceCell parseDateCell Cell.absent = Cell.absent)]
  rw [stage3, getColAt_convertColCoerce_ne (stage2 t) "vigencia_desde"
        "vigencia_hasta" parseDateCell h2 (by decide)]
  rw [stage2, getColAt_convertColStrict_ne (stage1 t) "fecha_resolucion"
        "vigencia_hasta" parseDateCell hi (by decide)]

theorem getColAt_final_of_rate (t : Table) {i : Nat}
    (hi : (stage1 t).colIdx "tasa_interes_ea" = some i) :
    (convertColRate (stage4 t) "tasa_interes_ea").getColAt i
      = ((stage1 t).getColAt i).map rateCell := by
  have h2 : (stage2 t).colIdx "tasa_interes_ea" = some i := by
    rw [colIdx_stage2]; exact hi
  have h3 : (stage3 t).colIdx "tasa_interes_ea" = some i := by
    rw [colIdx_stage3]; exact hi
  have h4 : (stage4 t).colIdx "tasa_interes_ea" = some i := by
    rw [colIdx_stage4]; exact hi
  rw [getColAt_convertColRate_self (stage4 t) h4]
  rw [stage4, getColAt_convertColCoerce_ne (stage3 t) "vigencia_hasta"
        "tasa_interes_ea" parseDateCell h3 (by decide)]
  rw [stage3, getColAt_convertColCoerce_ne (stage2 t) "vigencia_desde"
        "tasa_interes_ea" parseDateCell h2 (by decide)]
  rw [stage2, getColAt_convertColStrict_ne (stage1 t) "fecha_resolucion"
        "tasa_interes_ea" parseDateCell hi (by decide)]

theorem getTable_writeTable (w : StoreWorld) (dbn tbn : String) (t : Table) :
    getTable (writeTable w dbn tbn t) dbn tbn = some t := by
  unfold getTable
  rw [show getAssoc (writeTable w dbn tbn t) dbn
        = some (setAssoc ((getAssoc w dbn).getD []) tbn t) from
      getAssoc_setAssoc_self dbn _ w]
  exact getAssoc_setAssoc_self tbn t _

theorem connectDb_writeTable (w : StoreWorld) (dbn tbn : String) (t : Table) :
    connectDb (writeTable w dbn tbn t) dbn = writeTable w dbn tbn t := by
  unfold connectDb
  rw [show getAssoc (writeTable w dbn tbn t) dbn
        = some (setAssoc ((getAssoc w dbn).getD []) tbn t) from
      getAssoc_setAssoc_self dbn _ w]

theorem writeTable_idem (w : StoreWorld) (dbn tbn : String) (t : Table) :
    writeTable (writeTable w dbn tbn t) dbn tbn t = writeTable w dbn tbn t := by
  have h1 : getAssoc (writeTable w dbn tbn t) dbn
      = some (setAssoc ((getAssoc w dbn).getD []) tbn t) :=
    getAssoc_setAssoc_self dbn _ w
  show setAssoc (writeTable w dbn tbn t) dbn
      (setAssoc ((getAssoc (writeTable w dbn tbn t) dbn).getD []) tbn t)
    = writeTable w dbn tbn t
  rw [h1]
  simp only [Option.getD_some]
  rw [setAssoc_idem]
  show setAssoc (setAssoc w dbn (setAssoc ((getAssoc w dbn).getD []) tbn t)) dbn
      (setAssoc ((getAssoc w dbn).getD []) tbn t)
    = writeTable w dbn tbn t
  exact setAssoc_idem dbn (setAssoc ((getAssoc w dbn).getD []) tbn t) w

/-! ### Claim theorems -/

/-- C1, counterexample: the claim predicts that a rate value whose
residual after stripping the trailing '%' is "12,5" is transformed into
the number 12.5, but the code's to_numeric does not accept a comma as
decimal separator, so that cell comes out absent (and absent is not the
number 12.5). -/
theorem rate_comma_residual_counterexample :
    transform_data ⟨["INTERES_BANCARIO_CORRIENTE"], [[Cell.str "12,5%"]]⟩
        = ⟨["tasa_interes_ea"], [[Cell.absent]]⟩
    ∧ stripPercent "12,5%" = "12,5"
    ∧ Cell.absent ≠ Cell.num (25 / 2) := by
  refine ⟨by decide, by decide, fun h => Cell.noConfusion h⟩

/-- C1, amended: transform_data removes every '%' character (not only a
trailing one) from each tasa_interes_ea value and parses the remainder as
a decimal number with '.' as the decimal separator; a residual that is
not such a numeral — including "12,5" — becomes absent rather than
aborting the column, while "12.5" yields the numeric value 12.5. -/
theorem rate_strip_parse_amended (t : Table) (col : List Cell)
    (hne : t.isEmpty = false)
    (hcol : (renameColumns t).getCol "tasa_interes_ea" = some col) :
    (transform_data t).getCol "tasa_interes_ea" = some (col.map rateCell)
    ∧ (∀ s, parseNumeric (stripPercent s) = none →
        rateCell (Cell.str s) = Cell.absent)
    ∧ (∀ s q, parseNumeric (stripPercent s) = some q →
        rateCell (Cell.str s) = Cell.num q)
    ∧ rateCell (Cell.str "12,5%") = Cell.absent
    ∧ (∃ q, rateCell (Cell.str "12.5%") = Cell.num q ∧ q = 25 / 2) := by
  unfold Table.getCol at hcol
  obtain ⟨i, hi, hcoli⟩ := Option.map_eq_some'.mp hcol
  have hcoli1 : (stage1 t).getColAt i = col := hcoli
  refine ⟨?_, ?_, ?_, by decide, ?_⟩
  · rw [getCol_transform_eq t "tasa_interes_ea" hne hi,
        getColAt_final_of_rate t hi, hcoli1]
  · intro s h
    simp [rateCell, h]
  · intro s q h
    simp [rateCell, h]
  · refine ⟨(digitsToNat ['1', '2', '5'] : Rat) / (10 ^ 1 : Rat), rfl, ?_⟩
    rw [show digitsToNat ['1', '2', '5'] = 125 from by decide]
    norm_num

/-- Witness for the amended C1 at a one-row table holding "12.5%". -/
theorem rate_strip_parse_amended_witness :
    (transform_data ⟨["INTERES_BANCARIO_CORRIENTE"], [[Cell.str "12.5%"]]⟩).getCol
        "tasa_interes_ea" = some ([Cell.str "12.5%"].map rateCell)
    ∧ (∃ q, rateCell (Cell.str "12.5%") = Cell.num q ∧ q = 25 / 2) := by
  have h := rate_strip_parse_amended
    ⟨["INTERES_BANCARIO_CORRIENTE"], [[Cell.str "12.5%"]]⟩
    [Cell.str "12.5%"] (by decide) (by decide)
  exact ⟨h.1, h.2.2.2.2⟩

/-- C2: transform_data never drops a row: on non-empty input the output
has exactly as many rows as the input (each conversion rewrites cells in
place, turning unparseable fields into absent). -/
theorem transform_preserves_row_count (t : Table) (hne : t.isEmpty = false) :
    (transform_data t).rows.length = t.rows.length := by
  rw [transform_data_eq_stages t hne, rows_length_convertColRate,
      stage4, rows_length_convertColCoerce, stage3, rows_length_convertColCoerce,
      stage2, rows_length_convertColStrict]
  rfl

/-- Witness for C2 at a concrete one-row table. -/
theorem transform_preserves_row_count_witness :
    (transform_data ⟨["RESOLUCION"], [[Cell.str "0001"]]⟩).rows.length
      = (⟨["RESOLUCION"], [[Cell.str "0001"]]⟩ : Table).rows.length :=
  transform_preserves_row_count ⟨["RESOLUCION"], [[Cell.str "0001"]]⟩ (by decide)

/-- C3: the fecha_resolucion conversion is strict and batch-level: when
every cell of the column is a string matching DD/MM/YYYY the whole column
comes out as parsed dates (no absent values); when any single cell fails
to parse, the column conversion is abandoned and every cell keeps its
original textual form. -/
theorem fecha_resolucion_all_or_nothing (t : Table) (col : List Cell)
    (hne : t.isEmpty = false)
    (hcol : (renameColumns t).getCol "fecha_resolucion" = some col) :
    ((∀ c ∈ col, ∃ s d, c = Cell.str s ∧ parseDate s = some d) →
      (transform_data t).getCol "fecha_resolucion"
          = some (col.map (coerceCell parseDateCell))
      ∧ ∀ c2 ∈ col.map (coerceCell parseDateCell), ∃ d, c2 = Cell.date d)
    ∧ ((∃ c ∈ col, parseDateCell c = none) →
      (transform_data t).getCol "fecha_resolucion" = some col) := by
  unfold Table.getCol at hcol
  obtain ⟨i, hi, hcoli⟩ := Option.map_eq_some'.mp hcol
  have hcoli1 : (stage1 t).getColAt i = col := hcoli
  constructor
  · intro hall
    have hallb : ((stage1 t).getColAt i).all
        (fun c => (parseDateCell c).isSome) = true := by
      rw [List.all_eq_true]
      intro c hc
      rw [hcoli1] at hc
      obtain ⟨s, d, rfl, hd⟩ := hall c hc
      simp [parseDateCell, hd]
    constructor
    · rw [getCol_transform_eq t "fecha_resolucion" hne hi,
          getColAt_final_of_fecha t hi,
          stage2, getColAt_convertColStrict_all (stage1 t) hi hallb
            (rfl : coerceCell parseDateCell Cell.absent = Cell.absent), hcoli1]
    · intro c2 hc2
      obtain ⟨c, hc, rfl⟩ := List.mem_map.mp hc2
      obtain ⟨s, d, rfl, hd⟩ := hall c hc
      exact ⟨d, by simp [coerceCell, parseDateCell, hd]⟩
  · intro hfail
    obtain ⟨c, hc, hcnone⟩ := hfail
    have hfailb : ((stage1 t).getColAt i).all
        (fun c => (parseDateCell c).isSome) = false := by
      cases hb : ((stage1 t).getColAt i).all (fun c => (parseDateCell c).isSome) with
      | false => rfl
      | true =>
        have := List.all_eq_true.mp hb c (by rw [hcoli1]; exact hc)
        rw [hcnone] at this
        exact absurd this (by simp)
    have hstuck : stage2 t = stage1 t := by
      rw [stage2]
      exact convertColStrict_failure (stage1 t) hi hfailb
    rw [getCol_transform_eq t "fecha_resolucion" hne hi,
        getColAt_final_of_fecha t hi, hstuck, hcoli1]

/-- Witness for C3: both branches exercised on concrete one-column
tables (an all-valid column parses fully; a column with one bad row is
left textual for every row). -/
theorem fecha_resolucion_all_or_nothing_witness :
    ((transform_data ⟨["FECHA_RESOLUCION"], [[Cell.str "22/12/2014"]]⟩).getCol
        "fecha_resolucion"
        = some ([Cell.str "22/12/2014"].map (coerceCell parseDateCell)))
    ∧ ((transform_data
          ⟨["FECHA_RESOLUCION"],
           [[Cell.str "22/12/2014"], [Cell.str "not-a-date"]]⟩).getCol
        "fecha_resolucion"
        = some [Cell.str "22/12/2014", Cell.str "not-a-date"]) := by
  constructor
  · exact (fecha_resolucion_all_or_nothing
      ⟨["FECHA_RESOLUCION"], [[Cell.str "22/12/2014"]]⟩
      [Cell.str "22/12/2014"] (by decide) (by decide)).1
      (by
        intro c hc
        simp only [List.mem_singleton] at hc
        subst hc
        exact ⟨"22/12/2014", ⟨22, 12, 2014⟩, rfl, by decide⟩) |>.1
  · exact (fecha_resolucion_all_or_nothing
      ⟨["FECHA_RESOLUCION"], [[Cell.str "22/12/2014"], [Cell.str "not-a-date"]]⟩
      [Cell.str "22/12/2014", Cell.str "not-a-date"] (by decide) (by decide)).2
      ⟨Cell.str "not-a-date", by decide, by decide⟩

/-- C4: the vigencia_desde and vigencia_hasta conversions are permissive
and per-row: each cell is converted independently (the output column is a
cell-wise map, so one row's failure cannot affect another row), a cell
that fails to parse — including the empty string and an already-absent
cell — becomes absent, and a cell matching DD/MM/YYYY becomes the parsed
date. -/
theorem vigencia_coerce_per_row (t : Table) (cd ch : List Cell)
    (hne : t.isEmpty = false)
    (hd : (renameColumns t).getCol "vigencia_desde" = some cd)
    (hh : (renameColumns t).getCol "vigencia_hasta" = some ch) :
    (transform_data t).getCol "vigencia_desde"
        = some (cd.map (coerceCell parseDateCell))
    ∧ (transform_data t).getCol "vigencia_hasta"
        = some (ch.map (coerceCell parseDateCell))
    ∧ coerceCell parseDateCell (Cell.str "") = Cell.absent
    ∧ coerceCell parseDateCell Cell.absent = Cell.absent
    ∧ (∀ s d, parseDate s = some d →
        coerceCell parseDateCell (Cell.str s) = Cell.date d) := by
  unfold Table.getCol at hd hh
  obtain ⟨i, hi, hcoli⟩ := Option.map_eq_some'.mp hd
  obtain ⟨j, hj, hcolj⟩ := Option.map_eq_some'.mp hh
  have hcoli1 : (stage1 t).getColAt i = cd := hcoli
  have hcolj1 : (stage1 t).getColAt j = ch := hcolj
  refine ⟨?_, ?_, by decide, rfl, ?_⟩
  · rw [getCol_transform_eq t "vigencia_desde" hne hi,
        getColAt_final_of_vd t hi, hcoli1]
  · rw [getCol_transform_eq t "vigencia_hasta" hne hj,
        getColAt_final_of_vh t hj, hcolj1]
  · intro s d hsd
    simp [coerceCell, parseDateCell, hsd]

/-- Witness for C4: the spec's end-to-end scenario — three rows, one with
an empty vigencia_hasta; the transformed table keeps three rows, the
empty cell becomes absent and the other two parse to dates. -/
theorem vigencia_coerce_per_row_witness :
    ((transform_data
        ⟨["VIGENCIA_DESDE", "VIGENCIA_HASTA"],
         [[Cell.str "01/01/2015", Cell.str "31/12/2015"],
          [Cell.str "01/01/2016", Cell.str ""],
          [Cell.str "01/01/2017", Cell.str "31/12/2017"]]⟩).getCol
        "vigencia_hasta"
        = some ([Cell.str "31/12/2015", Cell.str "", Cell.str "31/12/2017"].map
            (coerceCell parseDateCell)))
    ∧ ([Cell.str "31/12/2015", Cell.str "", Cell.str "31/12/2017"].map
          (coerceCell parseDateCell)
        = [Cell.date ⟨31, 12, 2015⟩, Cell.absent, Cell.date ⟨31, 12, 2017⟩]) := by
  constructor
  · exact (vigencia_coerce_per_row
      ⟨["VIGENCIA_DESDE", "VIGENCIA_HASTA"],
       [[Cell.str "01/01/2015", Cell.str "31/12/2015"],
        [Cell.str "01/01/2016", Cell.str ""],
        [Cell.str "01/01/2017", Cell.str "31/12/2017"]]⟩
      [Cell.str "01/01/2015", Cell.str "01/01/2016", Cell.str "01/01/2017"]
      [Cell.str "31/12/2015", Cell.str "", Cell.str "31/12/2017"]
      (by decide) (by decide) (by decide)).2.1
  · decide

/-- C10: a zero-row input (even one that still carries column labels) is
empty in the pandas sense, so transform_data returns the fresh
`pd.DataFrame()` — no columns at all: the schema is lost. -/
theorem transform_zero_rows_drops_schema (t : Table) (h : t.rows = []) :
    transform_data t = emptyTable := by
  have he : t.isEmpty = true := by simp [Table.isEmpty, h]
  unfold transform_data
  rw [he]
  simp

/-- Witness for C10: a headers-only table loses its columns. -/
theorem transform_zero_rows_drops_schema_witness :
    transform_data ⟨["RESOLUCION", "FECHA_RESOLUCION"], []⟩ = emptyTable
    ∧ emptyTable.columns = [] :=
  ⟨transform_zero_rows_drops_schema ⟨["RESOLUCION", "FECHA_RESOLUCION"], []⟩ rfl,
   rfl⟩

/-- C5, counterexample: the claim says any non-2xx status yields an empty
table, but the code only calls raise_for_status, which raises for 4xx/5xx
alone; a 3xx response whose body is parseable CSV is parsed and returned
non-empty. -/
theorem extract_non2xx_counterexample :
    extract_data (HttpOutcome.response 302 "A,B\n1,2")
        = ⟨["A", "B"], [[Cell.str "1", Cell.str "2"]]⟩
    ∧ (extract_data (HttpOutcome.response 302 "A,B\n1,2")).isEmpty = false
    ∧ ¬(200 ≤ 302 ∧ 302 < 300) := by
  refine ⟨by decide, by decide, by decide⟩

/-- C5, amended: extract_data never raises (it is a total function whose
except clauses fold every exception into an empty DataFrame); a transport
failure, a 4xx or 5xx status, or an empty body yields the empty table;
any other response is parsed as CSV with the header row defining the
column names. -/
theorem extract_fail_soft :
    extract_data HttpOutcome.transportError = emptyTable
    ∧ (∀ code body, 400 ≤ code → code < 600 →
        extract_data (HttpOutcome.response code body) = emptyTable)
    ∧ (∀ code body, ¬(400 ≤ code ∧ code < 600) →
        read_csv body = Except.error PyExc.emptyDataError →
        extract_data (HttpOutcome.response code body) = emptyTable)
    ∧ (∀ code body tbl, ¬(400 ≤ code ∧ code < 600) →
        read_csv body = Except.ok tbl →
        extract_data (HttpOutcome.response code body) = tbl) := by
  refine ⟨rfl, ?_, ?_, ?_⟩
  · intro code body h1 h2
    simp [extract_data, extract_attempt, raise_for_status, h1, h2]
  · intro code body h hcsv
    simp [extract_data, extract_attempt, raise_for_status, h, hcsv]
  · intro code body tbl h hcsv
    simp [extract_data, extract_attempt, raise_for_status, h, hcsv]

/-- Witness for the amended C5: a 404 is swallowed into the empty table
and a 200 with a CSV body parses with the header as column names. -/
theorem extract_fail_soft_witness :
    extract_data (HttpOutcome.response 404 "A,B\n1,2") = emptyTable
    ∧ extract_data (HttpOutcome.response 200 "A,B\n1,2")
        = ⟨["A", "B"], [[Cell.str "1", Cell.str "2"]]⟩ := by
  constructor
  · exact extract_fail_soft.2.1 404 "A,B\n1,2" (by decide) (by decide)
  · exact extract_fail_soft.2.2.2 200 "A,B\n1,2"
      ⟨["A", "B"], [[Cell.str "1", Cell.str "2"]]⟩ (by decide) rfl

/-- C6: on an empty DataFrame load_data returns immediately — the world
is untouched, no connection event happens and no exception escapes; and
through the main block, an empty extraction result reaches the end of the
pipeline with the storage world untouched and no connection ever
opened. -/
theorem empty_load_opens_nothing :
    (∀ (df : Table) (dbn tbn : String) (w : StoreWorld) (cf sf : Bool),
      df.isEmpty = true → load_data df dbn tbn w cf sf = ⟨w, [], none⟩)
    ∧ (∀ (o : HttpOutcome) (w : StoreWorld) (cf sf : Bool),
      (extract_data o).isEmpty = true → run_pipeline o w cf sf = ⟨w, [], none⟩) := by
  constructor
  · intro df dbn tbn w cf sf h
    simp [load_data, h]
  · intro o w cf sf h
    simp [run_pipeline, h]

/-- Witness for C6: a transport failure extracts an empty table and the
whole pipeline leaves the world unchanged with no connection events. -/
theorem empty_load_opens_nothing_witness :
    load_data emptyTable "tibc_data.db" "tasas_interes_bancario" [] false false
        = ⟨[], [], none⟩
    ∧ run_pipeline HttpOutcome.transportError [] false false = ⟨[], [], none⟩ := by
  constructor
  · exact empty_load_opens_nothing.1 emptyTable "tibc_data.db"
      "tasas_interes_bancario" [] false false (by decide)
  · exact empty_load_opens_nothing.2 HttpOutcome.transportError [] false false
      (by decide)

/-- C7: with replace semantics, loading a non-empty table persists
exactly that table (prior contents of the named table are dropped, no
synthetic index column is added since the stored table is the DataFrame
itself), and loading it a second time leaves the world identical to the
first load — rows never accumulate. -/
theorem load_replace_idempotent (df : Table) (dbn tbn : String) (w : StoreWorld)
    (hne : df.isEmpty = false) :
    getTable (load_data df dbn tbn w false false).world dbn tbn = some df
    ∧ (load_data df dbn tbn (load_data df dbn tbn w false false).world
        false false).world
      = (load_data df dbn tbn w false false).world := by
  have hload : ∀ w' : StoreWorld, (load_data df dbn tbn w' false false).world
      = writeTable (connectDb w' dbn) dbn tbn df := by
    intro w'
    simp [load_data, hne]
  constructor
  · rw [hload w]
    exact getTable_writeTable (connectDb w dbn) dbn tbn df
  · rw [hload w, hload (writeTable (connectDb w dbn) dbn tbn df),
        connectDb_writeTable, writeTable_idem]

/-- Witness for C7 at a concrete one-row table over an empty world. -/
theorem load_replace_idempotent_witness :
    getTable (load_data ⟨["a"], [[Cell.str "x"]]⟩ "db" "t" [] false false).world
        "db" "t" = some ⟨["a"], [[Cell.str "x"]]⟩
    ∧ (load_data ⟨["a"], [[Cell.str "x"]]⟩ "db" "t"
        (load_data ⟨["a"], [[Cell.str "x"]]⟩ "db" "t" [] false false).world
        false false).world
      = (load_data ⟨["a"], [[Cell.str "x"]]⟩ "db" "t" [] false false).world :=
  load_replace_idempotent ⟨["a"], [[Cell.str "x"]]⟩ "db" "t" [] (by decide)

/-- C8: load_data never lets an exception reach its caller, its
connection events are always balanced (every opened connection is closed
before return, on the success path and on the to_sql failure path alike),
and on a non-empty table with a successful connect the event trace is
exactly open-then-close. -/
theorem load_conn_balanced (df : Table) (dbn tbn : String) (w : StoreWorld)
    (cf sf : Bool) :
    (load_data df dbn tbn w cf sf).exc = none
    ∧ (load_data df dbn tbn w cf sf).events.count LoadEvent.connOpened
        = (load_data df dbn tbn w cf sf).events.count LoadEvent.connClosed
    ∧ (df.isEmpty = false → cf = false →
        (load_data df dbn tbn w cf sf).events
          = [LoadEvent.connOpened, LoadEvent.connClosed]) := by
  cases he : df.isEmpty <;> cases cf <;> cases sf <;>
    simp [load_data, he, List.count]

/-- Witness for C8: the to_sql failure path on a non-empty table still
closes the opened connection and surfaces no exception. -/
theorem load_conn_balanced_witness :
    (load_data ⟨["a"], [[Cell.str "x"]]⟩ "db" "t" [] false true).exc = none
    ∧ (load_data ⟨["a"], [[Cell.str "x"]]⟩ "db" "t" [] false
        true).events.count LoadEvent.connOpened
      = (load_data ⟨["a"], [[Cell.str "x"]]⟩ "db" "t" [] false
          true).events.count LoadEvent.connClosed
    ∧ ((⟨["a"], [[Cell.str "x"]]⟩ : Table).isEmpty = false → false = false →
        (load_data ⟨["a"], [[Cell.str "x"]]⟩ "db" "t" [] false true).events
          = [LoadEvent.connOpened, LoadEvent.connClosed]) :=
  load_conn_balanced ⟨["a"], [[Cell.str "x"]]⟩ "db" "t" [] false true

/-- C9, counterexample: the claim says exit status 1 happens exactly on a
missing database, missing table or read error, but the script also exits
1 when the read succeeds on a non-empty table that lacks the expected
columns: the in-place coercion of fecha_resolucion raises KeyError, which
the generic exception handler turns into exit 1. -/
theorem viz_exit_schema_counterexample :
    viz_exit ⟨true, Except.ok ⟨["x"], [[Cell.str "v"]]⟩⟩ = 1
    ∧ (⟨["x"], [[Cell.str "v"]]⟩ : Table).isEmpty = false := by
  refine ⟨by decide, by decide⟩

/-- C9, amended: the script's exit status is always 0 or 1; it is 1 when
the database file is missing, when reading the table fails, when the
non-empty result lacks the columns the cleaning stage touches
(KeyError), or when the cleaned non-empty result lacks a column the
charts read — in particular tipo_credito_nombre, used by the box plot
and the top-5 bar plot (ValueError into the generic handler); it is 0
when the result is empty as read (warning), empty after dropping rows
missing the resolution date or the rate (warning), or when the charts
complete. -/
theorem viz_exit_amended (env : VizEnv) :
    (viz_exit env = 0 ∨ viz_exit env = 1)
    ∧ (env.dbExists = false → viz_exit env = 1)
    ∧ (∀ e, env.queryResult = Except.error e → viz_exit env = 1)
    ∧ (∀ df, env.dbExists = true → env.queryResult = Except.ok df →
        df.isEmpty = true → viz_exit env = 0)
    ∧ (∀ df e, env.dbExists = true → env.queryResult = Except.ok df →
        df.isEmpty = false → vizProcess df = Except.error e → viz_exit env = 1)
    ∧ (∀ df df2, env.dbExists = true → env.queryResult = Except.ok df →
        df.isEmpty = false → vizProcess df = Except.ok df2 →
        df2.isEmpty = true → viz_exit env = 0)
    ∧ (∀ df df2 e, env.dbExists = true → env.queryResult = Except.ok df →
        df.isEmpty = false → vizProcess df = Except.ok df2 →
        df2.isEmpty = false → chartStage df2 = Except.error e →
        viz_exit env = 1)
    ∧ (∀ df df2, env.dbExists = true → env.queryResult = Except.ok df →
        df.isEmpty = false → vizProcess df = Except.ok df2 →
        df2.isEmpty = false → chartStage df2 = Except.ok () →
        viz_exit env = 0) := by
  obtain ⟨dbe, qr⟩ := env
  refine ⟨?_, ?_, ?_, ?_, ?_, ?_, ?_, ?_⟩
  · cases dbe
    · right; rfl
    · cases qr with
      | error e => right; rfl
      | ok df =>
        by_cases he : df.isEmpty = true
        · left; simp [viz_exit, he]
        · cases hv : vizProcess df with
          | error e => right; simp [viz_exit, he, hv]
          | ok df2 =>
            by_cases h2 : df2.isEmpty = true
            · left; simp [viz_exit, he, hv, h2]
            · cases hcs : chartStage df2 with
              | error e => right; simp [viz_exit, he, hv, h2, hcs]
              | ok u => left; simp [viz_exit, he, hv, h2, hcs]
  · intro h
    have h' : dbe = false := h
    subst h'
    rfl
  · intro e h
    have h' : qr = Except.error e := h
    subst h'
    cases dbe <;> rfl
  · intro df hdb hq he
    have hdb' : dbe = true := hdb
    have hq' : qr = Except.ok df := hq
    subst hdb'
    subst hq'
    simp [viz_exit, he]
  · intro df e hdb hq he hv
    have hdb' : dbe = true := hdb
    have hq' : qr = Except.ok df := hq
    subst hdb'
    subst hq'
    simp [viz_exit, he, hv]
  · intro df df2 hdb hq he hv h2
    have hdb' : dbe = true := hdb
    have hq' : qr = Except.ok df := hq
    subst hdb'
    subst hq'
    simp [viz_exit, he, hv, h2]
  · intro df df2 e hdb hq he hv h2 hcs
    have hdb' : dbe = true := hdb
    have hq' : qr = Except.ok df := hq
    subst hdb'
    subst hq'
    simp [viz_exit, he, hv, h2, hcs]
  · intro df df2 hdb hq he hv h2 hcs
    have hdb' : dbe = true := hdb
    have hq' : qr = Except.ok df := hq
    subst hdb'
    subst hq'
    simp [viz_exit, he, hv, h2, hcs]

/-- Witness for the amended C9: a missing database exits 1; an empty
read result exits 0; a cleaned non-empty table missing
tipo_credito_nombre exits 1 through the chart stage; a table with all
five needed columns cleans, charts and exits 0. -/
theorem viz_exit_amended_witness :
    viz_exit ⟨false, Except.ok emptyTable⟩ = 1
    ∧ viz_exit ⟨true, Except.ok ⟨["x"], []⟩⟩ = 0
    ∧ viz_exit ⟨true, Except.ok ⟨["fecha_resolucion", "vigencia_desde",
        "vigencia_hasta", "tasa_interes_ea"],
        [[Cell.date ⟨22, 12, 2014⟩, Cell.absent, Cell.absent, Cell.num 1]]⟩⟩
      = 1
    ∧ viz_exit ⟨true, Except.ok ⟨["fecha_resolucion", "vigencia_desde",
        "vigencia_hasta", "tasa_interes_ea", "tipo_credito_nombre"],
        [[Cell.date ⟨22, 12, 2014⟩, Cell.absent, Cell.absent, Cell.num 1,
          Cell.str "Consumo"]]⟩⟩
      = 0 := by
  refine ⟨?_, ?_, ?_, ?_⟩
  · exact (viz_exit_amended ⟨false, Except.ok emptyTable⟩).2.1 rfl
  · exact (viz_exit_amended ⟨true, Except.ok ⟨["x"], []⟩⟩).2.2.2.1
      ⟨["x"], []⟩ rfl rfl (by decide)
  · exact (viz_exit_amended ⟨true, Except.ok ⟨["fecha_resolucion",
        "vigencia_desde", "vigencia_hasta", "tasa_interes_ea"],
        [[Cell.date ⟨22, 12, 2014⟩, Cell.absent, Cell.absent,
          Cell.num 1]]⟩⟩).2.2.2.2.2.2.1
      ⟨["fecha_resolucion", "vigencia_desde", "vigencia_hasta",
        "tasa_interes_ea"],
       [[Cell.date ⟨22, 12, 2014⟩, Cell.absent, Cell.absent, Cell.num 1]]⟩
      ⟨["fecha_resolucion", "vigencia_desde", "vigencia_hasta",
        "tasa_interes_ea"],
       [[Cell.date ⟨22, 12, 2014⟩, Cell.absent, Cell.absent, Cell.num 1]]⟩
      (PyExc.valueError "tipo_credito_nombre")
      rfl rfl (by decide) rfl (by decide) rfl
  · exact (viz_exit_amended ⟨true, Except.ok ⟨["fecha_resolucion",
        "vigencia_desde", "vigencia_hasta", "tasa_interes_ea",
        "tipo_credito_nombre"],
        [[Cell.date ⟨22, 12, 2014⟩, Cell.absent, Cell.absent, Cell.num 1,
          Cell.str "Consumo"]]⟩⟩).2.2.2.2.2.2.2
      ⟨["fecha_resolucion", "vigencia_desde", "vigencia_hasta",
        "tasa_interes_ea", "tipo_credito_nombre"],
       [[Cell.date ⟨22, 12, 2014⟩, Cell.absent, Cell.absent, Cell.num 1,
         Cell.str "Consumo"]]⟩
      ⟨["fecha_resolucion", "vigencia_desde", "vigencia_hasta",
        "tasa_interes_ea", "tipo_credito_nombre"],
       [[Cell.date ⟨22, 12, 2014⟩, Cell.absent, Cell.absent, Cell.num 1,
         Cell.str "Consumo"]]⟩
      rfl rfl (by decide) rfl (by decide) rfl
